import Mathlib

/-!
Verification of the conversation-state core of the Noor Assistant chat
application. The embedding follows the App component (messages state,
history ref, isLoading, error, theme), the Header theme toggle, and the
citation extraction performed on a successful model response. The external
API call is abstracted as an outcome (a response value or a thrown error);
everything the handlers do to session state is modelled exactly.
-/

namespace NoorChat

/-- Sender of a message, mirroring the sender field of the Message interface
(values user and ai). -/
inductive Sender where
  | user
  | ai
  deriving DecidableEq, Repr

/-- Role of a history entry, mirroring the role strings user and model used
when pushing onto historyRef. -/
inductive Role where
  | user
  | model
  deriving DecidableEq, Repr

/-- Theme value, mirroring the light and dark theme strings. -/
inductive Theme where
  | light
  | dark
  deriving DecidableEq, Repr

/-- The Source interface of the repository declares uri and title as strings,
but the extraction code maps chunks typed any, so at runtime a web object
whose uri or title is null or absent flows through unchecked; both fields are
therefore modelled as optional. -/
structure Source where
  uri : Option String
  title : Option String
  deriving DecidableEq, Repr

/-- A grounding chunk of the API response; its web field may be absent
(undefined in the source), which is what filter Boolean removes. -/
structure GroundingChunk where
  web : Option Source
  deriving DecidableEq, Repr

/-- The Message interface: sender, text, and an optional sources list. -/
structure Message where
  sender : Sender
  text : String
  sources : Option (List Source)
  deriving DecidableEq, Repr

/-- One part of a history entry; the source always pushes a single part
holding a text field. -/
structure Part where
  text : String
  deriving DecidableEq, Repr

/-- The Content wire type pushed onto historyRef: a role and a parts list. -/
structure Content where
  role : Role
  parts : List Part
  deriving DecidableEq, Repr

/-- The session state held by the App component: the messages state, the
history ref, the isLoading flag, the error slot, and the theme. -/
structure SessionState where
  messages : List Message
  history : List Content
  isLoading : Bool
  error : Option String
  theme : Theme
  deriving DecidableEq, Repr

/-- A successful API response as consumed by handleSendMessage: the reply
text and the grounding chunks reached through the optional chain
candidates [0] groundingMetadata groundingChunks, collapsed here into one
optional list. -/
structure ApiResponse where
  text : String
  groundingChunks : Option (List GroundingChunk)
  deriving DecidableEq, Repr

/-- Outcome of the awaited API call: either a response or a thrown error
(network failure, malformed response, or the missing-client throw). -/
inductive ApiOutcome where
  | success (r : ApiResponse)
  | failure
  deriving DecidableEq, Repr

/-- The fixed user-facing failure text of the catch branch. -/
def errorMessage : String := "Sorry, something went wrong. Please try again."

/-- The guard test of handleSendMessage on the text argument: the source
rejects the send when the trimmed text is falsy, i.e. empty, which holds
exactly when every character of the text is whitespace. -/
def isBlank (text : String) : Bool :=
  text.toList.all Char.isWhitespace

/-- The citation extraction of the success branch, written exactly as
groundingChunks map-to-web, filter Boolean, default empty: each chunk is
mapped to its web field and the absent ones are removed; a present web
object is kept whatever its uri holds, since any object is truthy. -/
def extractSources (groundingChunks : Option (List GroundingChunk)) : List Source :=
  (groundingChunks.map (fun cs => (cs.map GroundingChunk.web).filterMap id)).getD []

/-- Entry phase of handleSendMessage, after the guard has passed: append the
user message to the store, set isLoading, clear the error, and push the user
entry onto the history ref. -/
def sendStartCore (s : SessionState) (text : String) : SessionState :=
  { s with
    messages := s.messages ++ [{ sender := Sender.user, text := text, sources := none }],
    isLoading := true,
    error := none,
    history := s.history ++ [{ role := Role.user, parts := [{ text := text }] }] }

/-- Resolution phase of handleSendMessage: on success append the ai message
with its extracted sources to the store and push the model entry onto
history; on failure set the error, append the fixed ai error message to the
store and leave history untouched; either way the finally block clears
isLoading. -/
def finishCore (s : SessionState) (o : ApiOutcome) : SessionState :=
  match o with
  | ApiOutcome.success r =>
      { s with
        messages := s.messages ++
          [{ sender := Sender.ai, text := r.text,
             sources := some (extractSources r.groundingChunks) }],
        history := s.history ++ [{ role := Role.model, parts := [{ text := r.text }] }],
        isLoading := false }
  | ApiOutcome.failure =>
      { s with
        error := some errorMessage,
        messages := s.messages ++
          [{ sender := Sender.ai, text := errorMessage, sources := none }],
        isLoading := false }

/-- The whole handleSendMessage call for a given outcome of the awaited API
call: a no-op when the trimmed text is empty or a request is in flight,
otherwise the entry phase followed by the resolution phase. -/
def handleSendMessage (s : SessionState) (text : String) (o : ApiOutcome) : SessionState :=
  if isBlank text || s.isLoading then s
  else finishCore (sendStartCore s text) o

/-- handleClearChat: reset the messages state and the history ref to empty;
no other field is touched. -/
def handleClearChat (s : SessionState) : SessionState :=
  { s with messages := [], history := [] }

/-- The Header theme toggle: light becomes dark, anything else becomes
light. -/
def toggleTheme (theme : Theme) : Theme :=
  match theme with
  | Theme.light => Theme.dark
  | Theme.dark => Theme.light

/-- Events that mutate session state. A send is split at the await point:
sendStart performs the guard and the entry phase, finish resumes the
suspended handler with the outcome of the call. finish can only fire while a
request is in flight, which is exactly when isLoading holds. -/
inductive Op where
  | sendStart (text : String)
  | finish (o : ApiOutcome)
  | clearChat
  | toggle
  deriving DecidableEq, Repr

/-- Small-step semantics of one event against the session state. -/
def applyOp (s : SessionState) : Op → SessionState
  | Op.sendStart text =>
      if isBlank text || s.isLoading then s else sendStartCore s text
  | Op.finish o => if s.isLoading then finishCore s o else s
  | Op.clearChat => handleClearChat s
  | Op.toggle => { s with theme := toggleTheme s.theme }

/-- Initial session state: empty store and history, not loading, no error. -/
def initState (t : Theme) : SessionState :=
  { messages := [], history := [], isLoading := false, error := none, theme := t }

/-- Run a list of events from a state. -/
def runOps (s : SessionState) (ops : List Op) : SessionState :=
  ops.foldl applyOp s

/-- A state is reachable when some event sequence from some initial state
produces it. -/
def Reachable (s : SessionState) : Prop :=
  ∃ t ops, runOps (initState t) ops = s

/-- Number of user messages in the store. -/
def userCount (msgs : List Message) : Nat :=
  (msgs.filter fun m => m.sender == Sender.user).length

/-- Number of completed turns, counted by the ai entry that completes each
turn (a reply or the fixed error message). -/
def completedTurns (msgs : List Message) : Nat :=
  (msgs.filter fun m => m.sender == Sender.ai).length

/-- Number of turns completed by a successful reply: the success branch
always attaches a sources list (possibly empty), the failure branch never
does. -/
def answeredTurns (msgs : List Message) : Nat :=
  (msgs.filter fun m => m.sender == Sender.ai && m.sources.isSome).length

/-- The history entry a stored message gives rise to: a user entry for every
user message, a model entry for every successful ai message, and none for
the ai message recording a failed turn. -/
def shadowEntry (m : Message) : Option Content :=
  match m.sender, m.sources with
  | Sender.user, _ => some { role := Role.user, parts := [{ text := m.text }] }
  | Sender.ai, some _ => some { role := Role.model, parts := [{ text := m.text }] }
  | Sender.ai, none => none

/-- The history sequence determined by the message store. -/
def historyShadow (msgs : List Message) : List Content :=
  msgs.filterMap shadowEntry

/-- Appending a message extends the shadow by the entry of that message. -/
theorem historyShadow_append (msgs : List Message) (m : Message) :
    historyShadow (msgs ++ [m]) = historyShadow msgs ++ historyShadow [m] := by
  simp [historyShadow, List.filterMap_append]

/-- One step preserves the shadow relation between history and store. -/
theorem shadow_step (s : SessionState) (op : Op)
    (h : s.history = historyShadow s.messages) :
    (applyOp s op).history = historyShadow (applyOp s op).messages := by
  cases op with
  | sendStart text =>
      simp only [applyOp]
      split
      · exact h
      · simp [sendStartCore, historyShadow, shadowEntry, h]
  | finish o =>
      simp only [applyOp]
      split
      · cases o with
        | success r => simp [finishCore, historyShadow, shadowEntry, h]
        | failure => simp [finishCore, historyShadow, shadowEntry, h]
      · exact h
  | clearChat => simp [applyOp, handleClearChat, historyShadow]
  | toggle => simpa [applyOp] using h

/-- Any run preserves the shadow relation. -/
theorem shadow_runOps (ops : List Op) (s : SessionState)
    (h : s.history = historyShadow s.messages) :
    (runOps s ops).history = historyShadow (runOps s ops).messages := by
  induction ops generalizing s with
  | nil => exact h
  | cons op ops ih => exact ih (applyOp s op) (shadow_step s op h)

/-- Every reachable state satisfies the shadow relation. -/
theorem reachable_shadow (s : SessionState) (h : Reachable s) :
    s.history = historyShadow s.messages := by
  obtain ⟨t, ops, rfl⟩ := h
  exact shadow_runOps ops (initState t) rfl

/-- The shadow has one entry per user message plus one per answered turn. -/
theorem historyShadow_length (msgs : List Message) :
    (historyShadow msgs).length = userCount msgs + answeredTurns msgs := by
  induction msgs with
  | nil => rfl
  | cons m ms ih =>
      obtain ⟨sender, text, sources⟩ := m
      cases sender <;> cases sources <;>
        simp [historyShadow, shadowEntry, userCount, answeredTurns, List.filterMap_cons,
          List.filter_cons] at ih ⊢ <;> omega

/-- The only event that takes the history ref from nonempty to empty is the
clear-chat event. -/
theorem history_emptied_only_by_clear (s : SessionState) (op : Op)
    (hne : s.history ≠ []) (he : (applyOp s op).history = []) : op = Op.clearChat := by
  cases op with
  | sendStart text =>
      simp only [applyOp] at he
      split at he
      · exact absurd he hne
      · simp [sendStartCore] at he
  | finish o =>
      simp only [applyOp] at he
      split at he
      · cases o with
        | success r => simp [finishCore] at he
        | failure => simp only [finishCore] at he; exact absurd he hne
      · exact absurd he hne
  | clearChat => rfl
  | toggle => exact absurd he hne

/-- Claim C1, counterexample: on the response whose citations are a web
object with uri a.com and a web object whose uri is null, the extraction
does NOT drop the null-uri citation, because filter Boolean only removes
absent web objects and a present object is always truthy; the result is not
the singleton list the claim demands. -/
theorem citation_null_uri_kept :
    extractSources (some
        [{ web := some { uri := some "https://a.com", title := some "A" } },
         { web := some { uri := none, title := none } }])
      ≠ [{ uri := some "https://a.com", title := some "A" }] := by
  decide

/-- Claim C1, amended: each grounding chunk is mapped to its web object and
exactly the chunks whose web object is absent are discarded, preserving
relative order; a citation whose web object is present but has no uri is
kept. On the two concrete responses: the null-uri citation survives next to
the a.com citation, while a chunk with no web object at all is dropped. -/
theorem extractSources_spec (cs : List GroundingChunk) :
    extractSources (some cs) = cs.filterMap GroundingChunk.web
    ∧ extractSources none = []
    ∧ extractSources (some
        [{ web := some { uri := some "https://a.com", title := some "A" } },
         { web := some { uri := none, title := none } }])
      = [{ uri := some "https://a.com", title := some "A" }, { uri := none, title := none }]
    ∧ extractSources (some
        [{ web := some { uri := some "https://a.com", title := some "A" } },
         { web := none }])
      = [{ uri := some "https://a.com", title := some "A" }] := by
  refine ⟨?_, rfl, by decide, by decide⟩
  simp [extractSources, List.filterMap_map]

/-- Claim C2, counterexample: after one send whose API call fails, the store
holds the user message and the fixed error message, so one turn is
completed, but the history ref holds only the user entry: its length is 1,
not 2 times the number of completed turns. -/
theorem history_length_claim_fails :
    ¬ ((runOps (initState Theme.light) [Op.sendStart "hi", Op.finish ApiOutcome.failure]).history.length
        = 2 * completedTurns
            (runOps (initState Theme.light) [Op.sendStart "hi", Op.finish ApiOutcome.failure]).messages) := by
  decide

/-- Claim C2, amended: in every reachable state the length of the history
ref equals the number of user messages plus the number of turns answered by
a successful reply; in particular, whenever the user count matches the
completed-turn count and every completed turn was answered successfully,
the length is twice the number of completed turns. -/
theorem history_length_invariant (s : SessionState) (h : Reachable s) :
    s.history.length = userCount s.messages + answeredTurns s.messages
    ∧ (userCount s.messages = completedTurns s.messages →
        answeredTurns s.messages = completedTurns s.messages →
        s.history.length = 2 * completedTurns s.messages) := by
  have hs := reachable_shadow s h
  constructor
  · rw [hs, historyShadow_length]
  · intro h1 h2
    rw [hs, historyShadow_length, h1, h2]
    omega

/-- Claim C2, witness: the amended invariant evaluated on the concrete
reachable state left by one failed send. -/
theorem history_length_invariant_witness :
    (runOps (initState Theme.light) [Op.sendStart "hi", Op.finish ApiOutcome.failure]).history.length
      = userCount (runOps (initState Theme.light) [Op.sendStart "hi", Op.finish ApiOutcome.failure]).messages
        + answeredTurns (runOps (initState Theme.light) [Op.sendStart "hi", Op.finish ApiOutcome.failure]).messages :=
  (history_length_invariant _ ⟨Theme.light, _, rfl⟩).1

/-- Claim C3, counterexample: after one send whose API call fails, the store
holds two messages but the history ref holds one entry, so the history
cannot be a one-to-one shadow of the store. -/
theorem shadow_claim_fails :
    ¬ ((runOps (initState Theme.light) [Op.sendStart "bye", Op.finish ApiOutcome.failure]).history.length
        = (runOps (initState Theme.light) [Op.sendStart "bye", Op.finish ApiOutcome.failure]).messages.length) := by
  decide

/-- Claim C3, amended: in every reachable state the history ref is exactly
the order-preserving image of the store in which every user message and
every successfully answered ai message contributes its one entry and the ai
message recording a failed turn contributes none; moreover the history goes
from nonempty to empty only through the clear-chat event. -/
theorem history_shadow_invariant (s : SessionState) (h : Reachable s) :
    s.history = historyShadow s.messages
    ∧ ∀ op, s.history ≠ [] → (applyOp s op).history = [] → op = Op.clearChat :=
  ⟨reachable_shadow s h, fun op => history_emptied_only_by_clear s op⟩

/-- Claim C3, witness: the shadow relation on the concrete run that sends
M1, receives reply R1 and sends M2, whose history is exactly the user M1,
model R1 and user M2 entries in that order. -/
theorem history_shadow_invariant_witness :
    (runOps (initState Theme.light)
        [Op.sendStart "M1", Op.finish (ApiOutcome.success { text := "R1", groundingChunks := none }),
         Op.sendStart "M2"]).history
      = historyShadow (runOps (initState Theme.light)
          [Op.sendStart "M1", Op.finish (ApiOutcome.success { text := "R1", groundingChunks := none }),
           Op.sendStart "M2"]).messages
    ∧ (runOps (initState Theme.light)
        [Op.sendStart "M1", Op.finish (ApiOutcome.success { text := "R1", groundingChunks := none }),
         Op.sendStart "M2"]).history
      = [{ role := Role.user, parts := [{ text := "M1" }] },
         { role := Role.model, parts := [{ text := "R1" }] },
         { role := Role.user, parts := [{ text := "M2" }] }] :=
  ⟨(history_shadow_invariant _ ⟨Theme.light, _, rfl⟩).1, by decide⟩

/-- Claim C4: when the API call of a send throws, the resolution phase
appends exactly one ai message carrying the fixed failure text to the store,
appends nothing to the history ref, and sets the error slot to that same
text; over the whole call the store gains the user message and that one
error message, the error slot ends at the fixed text, and isLoading ends
false whatever the outcome. -/
theorem sendMessage_failure_effects (s : SessionState) (text : String) (o : ApiOutcome)
    (h1 : isBlank text = false) (h2 : s.isLoading = false) :
    (finishCore s ApiOutcome.failure).messages
        = s.messages ++ [{ sender := Sender.ai, text := errorMessage, sources := none }]
    ∧ (finishCore s ApiOutcome.failure).history = s.history
    ∧ (finishCore s ApiOutcome.failure).error = some errorMessage
    ∧ (handleSendMessage s text ApiOutcome.failure).messages
        = s.messages ++ [{ sender := Sender.user, text := text, sources := none },
                         { sender := Sender.ai, text := errorMessage, sources := none }]
    ∧ (handleSendMessage s text ApiOutcome.failure).error = some errorMessage
    ∧ (handleSendMessage s text o).isLoading = false := by
  refine ⟨rfl, rfl, rfl, ?_, ?_, ?_⟩
  · simp [handleSendMessage, h1, h2, sendStartCore, finishCore]
  · simp [handleSendMessage, h1, h2, sendStartCore, finishCore]
  · cases o <;> simp [handleSendMessage, h1, h2, sendStartCore, finishCore]

/-- Claim C4, witness: the failure effects evaluated on the initial state
and the text hi. -/
theorem sendMessage_failure_effects_witness :
    isBlank "hi" = false
    ∧ (handleSendMessage (initState Theme.light) "hi" ApiOutcome.failure).error = some errorMessage
    ∧ (handleSendMessage (initState Theme.light) "hi" ApiOutcome.failure).isLoading = false :=
  ⟨by decide,
   (sendMessage_failure_effects (initState Theme.light) "hi" ApiOutcome.failure (by decide) rfl).2.2.2.2.1,
   (sendMessage_failure_effects (initState Theme.light) "hi" ApiOutcome.failure (by decide) rfl).2.2.2.2.2⟩

/-- Claim C5: for a text that is non-blank after trimming, sent while no
request is in flight, the entry phase appends exactly one user message to
the store and exactly one user entry to the history ref, sets isLoading and
clears the error slot, all before the API call is issued. -/
theorem sendMessage_entry_effects (s : SessionState) (text : String)
    (h1 : isBlank text = false) (h2 : s.isLoading = false) :
    (applyOp s (Op.sendStart text)).messages
        = s.messages ++ [{ sender := Sender.user, text := text, sources := none }]
    ∧ (applyOp s (Op.sendStart text)).history
        = s.history ++ [{ role := Role.user, parts := [{ text := text }] }]
    ∧ (applyOp s (Op.sendStart text)).isLoading = true
    ∧ (applyOp s (Op.sendStart text)).error = none := by
  simp [applyOp, h1, h2, sendStartCore]

/-- Claim C5, witness: the entry effects evaluated on the initial state and
the text hi. -/
theorem sendMessage_entry_effects_witness :
    isBlank "hi" = false
    ∧ (applyOp (initState Theme.light) (Op.sendStart "hi")).isLoading = true
    ∧ (applyOp (initState Theme.light) (Op.sendStart "hi")).messages
        = [{ sender := Sender.user, text := "hi", sources := none }] :=
  ⟨by decide,
   (sendMessage_entry_effects (initState Theme.light) "hi" (by decide) rfl).2.2.1,
   (sendMessage_entry_effects (initState Theme.light) "hi" (by decide) rfl).1⟩

/-- Claim C6: a send whose text is blank after trimming is a no-op, both as
a whole call and at the entry phase: the state, hence the store, the history
ref and isLoading, is unchanged and no API call is consumed. -/
theorem sendMessage_blank_noop (s : SessionState) (text : String) (o : ApiOutcome)
    (h : isBlank text = true) :
    handleSendMessage s text o = s ∧ applyOp s (Op.sendStart text) = s := by
  constructor <;> simp [handleSendMessage, applyOp, h]

/-- Claim C6, witness: the no-op evaluated on the initial state with a
whitespace-only text. -/
theorem sendMessage_blank_noop_witness :
    isBlank "   " = true
    ∧ handleSendMessage (initState Theme.dark) "   " ApiOutcome.failure = initState Theme.dark :=
  ⟨by decide,
   (sendMessage_blank_noop (initState Theme.dark) "   " ApiOutcome.failure (by decide)).1⟩

/-- Claim C7: a send issued while isLoading holds is a no-op, both as a
whole call and at the entry phase: no message, no history entry, no API call
consumed, so at most one request is in flight. -/
theorem sendMessage_inflight_noop (s : SessionState) (text : String) (o : ApiOutcome)
    (h : s.isLoading = true) :
    handleSendMessage s text o = s ∧ applyOp s (Op.sendStart text) = s := by
  constructor <;> simp [handleSendMessage, applyOp, h]

/-- Claim C7, witness: the no-op evaluated on a concrete loading state. -/
theorem sendMessage_inflight_noop_witness :
    ({ messages := [], history := [], isLoading := true, error := none,
       theme := Theme.light } : SessionState).isLoading = true
    ∧ handleSendMessage
        { messages := [], history := [], isLoading := true, error := none, theme := Theme.light }
        "hi" ApiOutcome.failure
      = { messages := [], history := [], isLoading := true, error := none, theme := Theme.light } :=
  ⟨rfl,
   (sendMessage_inflight_noop
      { messages := [], history := [], isLoading := true, error := none, theme := Theme.light }
      "hi" ApiOutcome.failure rfl).1⟩

/-- Claim C8: clearing the chat empties both the message store and the
history ref and leaves the theme exactly as it was. -/
theorem clearChat_resets (s : SessionState) :
    (handleClearChat s).messages = [] ∧ (handleClearChat s).history = []
    ∧ (handleClearChat s).theme = s.theme :=
  ⟨rfl, rfl, rfl⟩

/-- Claim C9: the theme toggle composed with itself is the identity, with
light mapping to dark and dark mapping to light. -/
theorem toggleTheme_involutive (t : Theme) :
    toggleTheme (toggleTheme t) = t
    ∧ toggleTheme Theme.light = Theme.dark ∧ toggleTheme Theme.dark = Theme.light := by
  cases t <;> exact ⟨rfl, rfl, rfl⟩

/-- Claim C10: clearing the chat touches only the store and the history ref;
isLoading, the error slot and the theme keep their prior values, so a clear
issued mid-flight neither cancels the pending request nor dismisses the
error banner. -/
theorem clearChat_frame (s : SessionState) :
    (handleClearChat s).isLoading = s.isLoading
    ∧ (handleClearChat s).error = s.error
    ∧ (handleClearChat s).theme = s.theme :=
  ⟨rfl, rfl, rfl⟩

end NoorChat
